import Mathlib

/-!
Verification of the portal attach/detach lifecycle and the tab-nav-bar
active-link logic of this component library.

The portal part of the repository ships only type declarations
(`BasePortalOutlet`, `Portal`, `DomPortalOutlet`, ...); the method bodies are
not in the source tree.  The definitions below are therefore modelled from the
specification of the portal lifecycle contract (spec sections 3, 4 and 7),
keeping the declared names.  The tab-nav-bar part
(`src/src/material/tabs/tab-nav-bar/tab-nav-bar.ts`) has full code and is
embedded directly from it.
-/

/-- Modelled from the spec: the tagged variants of `Portal` — a component
portal, a template portal, or some other (custom) subclass that the base
outlet does not recognize (spec section 9: tagged union {Component, Template,
Custom}). -/
inductive PortalVariant where
  | component
  | template
  | custom
deriving DecidableEq, Repr

/-- Modelled from the spec: error taxonomy of the portal core
(spec section 7). -/
inductive PortalError where
  | alreadyAttachedError
  | unknownPortalTypeError
  | missingContentError
deriving DecidableEq, Repr

/-- Modelled from the spec: `Portal<T>` state — the variant tag and the weak
back-reference `_attachedHost` to the outlet it is currently attached to
(outlets are identified by a numeric handle, spec section 9: store an
index/handle into an outlet registry).  Absent back-reference means the portal
is free-standing (spec section 3). -/
structure Portal where
  variant : PortalVariant
  _attachedHost : Option Nat
deriving DecidableEq, Repr

/-- Modelled from the spec: `Portal.isAttached` is derived from whether a
back-reference to a host exists (spec section 3). -/
def Portal.isAttached (p : Portal) : Bool :=
  p._attachedHost.isSome

/-- Modelled from the spec: `setAttachedHost(host)` sets or clears the
back-reference without triggering attach/detach side effects
(spec section 4.1). -/
def Portal.setAttachedHost (p : Portal) (host : Option Nat) : Portal :=
  { p with _attachedHost := host }

/-- Which abstract hook `BasePortalOutlet.attach` dispatched to
(spec section 4.2: dispatches by the concrete Portal variant to the matching
`attachComponentPortal` / `attachTemplatePortal` hook). -/
inductive AttachDispatch where
  | toComponent
  | toTemplate
deriving DecidableEq, Repr

/-- Modelled from the spec: `BasePortalOutlet` state — the currently attached
portal `_attachedPortal` (absent in the Empty state), the registered disposal
callback (callbacks are identified by a numeric handle), and whether the
outlet has been permanently disposed (spec sections 3 and 4.2). -/
structure BasePortalOutlet where
  _attachedPortal : Option Portal
  _disposeFn : Option Nat
  _isDisposed : Bool
deriving DecidableEq, Repr

/-- Modelled from the spec: `hasAttached()` — true iff state == Attached
(spec section 4.2). -/
def BasePortalOutlet.hasAttached (o : BasePortalOutlet) : Bool :=
  o._attachedPortal.isSome

/-- Modelled from the spec: `setDisposeFn(fn)` registers the callback to run
on next disposal; replaces any previously registered callback
(spec section 4.2). -/
def BasePortalOutlet.setDisposeFn (o : BasePortalOutlet) (f : Nat) : BasePortalOutlet :=
  { o with _disposeFn := some f }

/-- Modelled from the spec: `BasePortalOutlet.attach(portal)` — fails with
`AlreadyAttachedError` if currently in Attached state; otherwise dispatches by
the portal variant to `attachComponentPortal` / `attachTemplatePortal`, which
record the portal as `_attachedPortal`; fails with `UnknownPortalTypeError` if
the portal is neither known variant (spec section 4.2).  The result reports
which hook handled the portal together with the updated outlet. -/
def BasePortalOutlet.attach (o : BasePortalOutlet) (p : Portal) :
    Except PortalError (AttachDispatch × BasePortalOutlet) :=
  if o.hasAttached then
    Except.error PortalError.alreadyAttachedError
  else
    match p.variant with
    | PortalVariant.component =>
        Except.ok (AttachDispatch.toComponent, { o with _attachedPortal := some p })
    | PortalVariant.template =>
        Except.ok (AttachDispatch.toTemplate, { o with _attachedPortal := some p })
    | PortalVariant.custom =>
        Except.error PortalError.unknownPortalTypeError

/-- Modelled from the spec: `BasePortalOutlet.detach()` — Attached → Empty:
clears the attached portal and invokes the registered disposal callback
exactly once (the callback is one-shot, so it is cleared after running);
calling `detach()` while Empty is a no-op (spec section 4.2).  The second
component lists the callbacks invoked by this call. -/
def BasePortalOutlet.detach (o : BasePortalOutlet) : BasePortalOutlet × List Nat :=
  match o._attachedPortal with
  | none => (o, [])
  | some _ =>
    match o._disposeFn with
    | some f => ({ o with _attachedPortal := none, _disposeFn := none }, [f])
    | none => ({ o with _attachedPortal := none }, [])

/-- Modelled from the spec: `BasePortalOutlet.dispose()` — if currently
Attached, performs the same cleanup as `detach()` first, then runs the
disposal callback if not already run, and marks the outlet permanently
Disposed (spec section 4.2).  The second component lists the callbacks
invoked by this call. -/
def BasePortalOutlet.dispose (o : BasePortalOutlet) : BasePortalOutlet × List Nat :=
  let od := if o.hasAttached then o.detach else (o, [])
  match od.1._disposeFn with
  | some f => ({ od.1 with _disposeFn := none, _isDisposed := true }, od.2 ++ [f])
  | none => ({ od.1 with _isDisposed := true }, od.2)

/-- Modelled from the spec: `Portal.attach(host)` — fails with
`AlreadyAttachedError` if this portal already has a host; otherwise calls
`host.attach(this)`, sets the back-reference on success, and propagates the
outlet error on failure (spec section 4.1).  `hostId` is the numeric handle
under which the host outlet is registered. -/
def Portal.attach (p : Portal) (hostId : Nat) (host : BasePortalOutlet) :
    Except PortalError (Portal × BasePortalOutlet × AttachDispatch) :=
  if p.isAttached then
    Except.error PortalError.alreadyAttachedError
  else
    match host.attach p with
    | Except.error e => Except.error e
    | Except.ok (d, host2) => Except.ok (p.setAttachedHost (some hostId), host2, d)

/-- Modelled from the spec: `Portal.detach()` — if no host is attached this is
a no-op (not an error); otherwise calls `host.detach()` and clears the
back-reference (spec section 4.1).  The last component lists the disposal
callbacks the host invoked. -/
def Portal.detach (p : Portal) (host : BasePortalOutlet) :
    Portal × BasePortalOutlet × List Nat :=
  match p._attachedHost with
  | none => (p, host, [])
  | some _ => (p.setAttachedHost none, (host.detach).1, (host.detach).2)

/-- Modelled from the spec: `DomPortalOutlet` state — the base outlet state,
the children of the anchor node `outletElement` (nodes are identified by
numeric handles), the recorded number of root nodes of the currently attached
embedded view (spec section 4.3: records their count so `detach()` can remove
exactly that many on teardown), and whether the view handle produced by the
last template attachment has been destroyed. -/
structure DomPortalOutlet where
  base : BasePortalOutlet
  outletChildren : List Nat
  attachedViewRootCount : Option Nat
  attachedViewDestroyed : Bool
deriving DecidableEq, Repr

/-- Modelled from the spec: `DomPortalOutlet.attachTemplatePortal` — renders
the template into a detached view, moves each of the view's root nodes into
the anchor node (appending them as children), records the portal as attached
on the base outlet, and records the root-node count for teardown
(spec section 4.3).  `rootNodes` are the root nodes of the rendered view. -/
def DomPortalOutlet.attachTemplatePortal (o : DomPortalOutlet) (p : Portal)
    (rootNodes : List Nat) : DomPortalOutlet :=
  { o with
    base := { o.base with _attachedPortal := some p },
    outletChildren := o.outletChildren ++ rootNodes,
    attachedViewRootCount := some rootNodes.length,
    attachedViewDestroyed := false }

/-- Modelled from the spec: `DomPortalOutlet.detach` — performs the base
teardown and removes from the anchor node exactly the recorded number of root
nodes (the ones the attachment appended), destroying the attached view handle
(spec section 4.3). -/
def DomPortalOutlet.detach (o : DomPortalOutlet) : DomPortalOutlet :=
  match o.attachedViewRootCount with
  | none => { o with base := (o.base.detach).1 }
  | some k =>
    { o with
      base := (o.base.detach).1,
      outletChildren := o.outletChildren.take (o.outletChildren.length - k),
      attachedViewRootCount := none,
      attachedViewDestroyed := true }

/-- State of a tab link (`_MatTabLinkBase`): the `_isActive` flag
(tab-nav-bar.ts line 206). -/
structure TabLink where
  _isActive : Bool
deriving DecidableEq, Repr

/-- The `active` getter of `_MatTabLinkBase`: returns `_isActive`
(tab-nav-bar.ts line 210). -/
def TabLink.active (l : TabLink) : Bool :=
  l._isActive

/-- State of the tab nav bar (`_MatTabNavBase`) relevant to
`updateActiveLink`: the `_items` query list (absent when not yet set), the
inherited `selectedIndex`, whether the ink bar has been hidden, and whether
the change detector has been marked for check (tab-nav-bar.ts lines 60-139). -/
structure MatTabNavBase where
  _items : Option (List TabLink)
  selectedIndex : Int
  inkBarHidden : Bool
  markedForCheck : Bool
deriving DecidableEq, Repr

/-- The search loop of `updateActiveLink`
(tab-nav-bar.ts lines 128-134): walk the items in order with counter `i`;
return the counter at the first item whose `active` getter is true, or nothing
if none is. -/
def findActiveIdx : List TabLink → Nat → Option Nat
  | [], _ => none
  | l :: ls, i => if l.active then some i else findActiveIdx ls (i + 1)

/-- `_MatTabNavBase.updateActiveLink` (tab-nav-bar.ts lines 121-139): if
`_items` is unset, return unchanged; otherwise set `selectedIndex` to the
index of the first active item and mark for check, or, when no item is
active, set `selectedIndex` to -1 and hide the ink bar. -/
def MatTabNavBase.updateActiveLink (s : MatTabNavBase) : MatTabNavBase :=
  match s._items with
  | none => s
  | some items =>
    match findActiveIdx items 0 with
    | some i => { s with selectedIndex := (i : Int), markedForCheck := true }
    | none => { s with selectedIndex := -1, inkBarHidden := true }

/-- The `active` setter of `_MatTabLinkBase` (tab-nav-bar.ts lines 211-216):
if the assigned value differs from `_isActive`, update `_isActive` and call
`_tabNavBar.updateActiveLink`; otherwise do nothing.  The last component
counts how many times `updateActiveLink` was invoked. -/
def TabLink.setActive (link : TabLink) (nav : MatTabNavBase) (value : Bool) :
    TabLink × MatTabNavBase × Nat :=
  if value ≠ link._isActive then
    ({ link with _isActive := value }, nav.updateActiveLink, 1)
  else
    (link, nav, 0)

/-- Helper: the search loop `findActiveIdx` returns `k + i` when `i` is the
first index (relative to the remaining items) whose item is active; the
counter `k` is the loop offset. -/
theorem findActiveIdx_eq_of_first (items : List TabLink) :
    ∀ k i, i < items.length → (items.getD i ⟨false⟩).active = true →
      (∀ j, j < i → (items.getD j ⟨false⟩).active = false) →
      findActiveIdx items k = some (k + i) := by
  induction items with
  | nil =>
    intro k i hi _ _
    exact absurd hi (Nat.not_lt_zero i)
  | cons l ls ih =>
    intro k i hi ha hb
    by_cases hl : l.active
    · have hi0 : i = 0 := by
        by_contra hne
        have hb0 := hb 0 (Nat.pos_of_ne_zero hne)
        rw [List.getD_cons_zero] at hb0
        rw [hb0] at hl
        exact Bool.noConfusion hl
      subst hi0
      simp [findActiveIdx, hl]
    · have hi0 : i ≠ 0 := by
        intro h0
        subst h0
        rw [List.getD_cons_zero] at ha
        exact hl ha
      obtain ⟨j, rfl⟩ : ∃ j, i = j + 1 := ⟨i - 1, by omega⟩
      have hrec := ih (k + 1) j (by simpa using hi)
        (by rw [List.getD_cons_succ] at ha; exact ha)
        (fun m hm => by
          have := hb (m + 1) (by omega)
          rw [List.getD_cons_succ] at this
          exact this)
      simp only [findActiveIdx, hl, if_false, Bool.false_eq_true, hrec]
      congr 1
      omega

/-- Helper: the search loop `findActiveIdx` finds nothing when no item is
active. -/
theorem findActiveIdx_none_of_all_inactive (items : List TabLink) :
    ∀ k, (∀ l ∈ items, l.active = false) → findActiveIdx items k = none := by
  induction items with
  | nil => intro k _; rfl
  | cons l ls ih =>
    intro k h
    have hl := h l (List.mem_cons_self l ls)
    simp only [findActiveIdx, hl, Bool.false_eq_true, if_false]
    exact ih (k + 1) (fun x hx => h x (List.mem_cons_of_mem l hx))

/-- C1: after a successful `O.attach(P)` with no intervening `detach()`, a
second `O.attach(Q)` with a distinct portal Q fails with
`AlreadyAttachedError`, and the outlet still holds P as its attached portal
(the failed attach returns an error without producing any new state). -/
theorem attach_when_attached_fails_and_preserves
    (o o1 : BasePortalOutlet) (p q : Portal) (d : AttachDispatch)
    (hpq : p ≠ q) (h : o.attach p = Except.ok (d, o1)) :
    o1.attach q = Except.error PortalError.alreadyAttachedError ∧
    o1._attachedPortal = some p := by
  unfold BasePortalOutlet.attach at h
  by_cases ha : o.hasAttached
  · simp [ha] at h
  · cases hv : p.variant <;> simp [ha, hv] at h
    · obtain ⟨h1, h2⟩ := h
      subst h2
      simp [BasePortalOutlet.attach, BasePortalOutlet.hasAttached]
    · obtain ⟨h1, h2⟩ := h
      subst h2
      simp [BasePortalOutlet.attach, BasePortalOutlet.hasAttached]

/-- Witness for C1 at a concrete outlet and portals. -/
theorem attach_when_attached_fails_and_preserves_witness :
    BasePortalOutlet.attach ⟨some ⟨PortalVariant.component, none⟩, none, false⟩
        ⟨PortalVariant.template, none⟩ =
      Except.error PortalError.alreadyAttachedError ∧
    (⟨some ⟨PortalVariant.component, none⟩, none, false⟩ :
        BasePortalOutlet)._attachedPortal = some ⟨PortalVariant.component, none⟩ :=
  attach_when_attached_fails_and_preserves
    ⟨none, none, false⟩ ⟨some ⟨PortalVariant.component, none⟩, none, false⟩
    ⟨PortalVariant.component, none⟩ ⟨PortalVariant.template, none⟩
    AttachDispatch.toComponent (by decide) (by rfl)

/-- C2: a free-standing portal (of a recognized variant) can be attached to an
empty outlet, detached, and then attached to a second empty outlet; every step
succeeds and afterwards the portal is attached with its back-referenced host
being the second outlet. -/
theorem portal_reattach_after_detach_succeeds
    (p : Portal) (i1 i2 : Nat) (o1 o2 : BasePortalOutlet)
    (hp : p._attachedHost = none) (hv : p.variant ≠ PortalVariant.custom)
    (h1 : o1._attachedPortal = none) (h2 : o2._attachedPortal = none) :
    ∃ p1 w1 d1 p3 w2 d2,
      p.attach i1 o1 = Except.ok (p1, w1, d1) ∧
      (p1.detach w1).1.attach i2 o2 = Except.ok (p3, w2, d2) ∧
      p3.isAttached = true ∧ p3._attachedHost = some i2 := by
  obtain ⟨v, ah⟩ := p
  cases ah with
  | some a => simp at hp
  | none =>
    cases v with
    | custom => simp at hv
    | component =>
      refine ⟨⟨PortalVariant.component, some i1⟩,
        { o1 with _attachedPortal := some ⟨PortalVariant.component, none⟩ },
        AttachDispatch.toComponent,
        ⟨PortalVariant.component, some i2⟩,
        { o2 with _attachedPortal := some ⟨PortalVariant.component, none⟩ },
        AttachDispatch.toComponent, ?_, ?_, rfl, rfl⟩
      · simp [Portal.attach, Portal.isAttached, BasePortalOutlet.attach,
          BasePortalOutlet.hasAttached, h1, Portal.setAttachedHost]
      · simp [Portal.detach, Portal.attach, Portal.isAttached, BasePortalOutlet.attach,
          BasePortalOutlet.hasAttached, h2, Portal.setAttachedHost]
    | template =>
      refine ⟨⟨PortalVariant.template, some i1⟩,
        { o1 with _attachedPortal := some ⟨PortalVariant.template, none⟩ },
        AttachDispatch.toTemplate,
        ⟨PortalVariant.template, some i2⟩,
        { o2 with _attachedPortal := some ⟨PortalVariant.template, none⟩ },
        AttachDispatch.toTemplate, ?_, ?_, rfl, rfl⟩
      · simp [Portal.attach, Portal.isAttached, BasePortalOutlet.attach,
          BasePortalOutlet.hasAttached, h1, Portal.setAttachedHost]
      · simp [Portal.detach, Portal.attach, Portal.isAttached, BasePortalOutlet.attach,
          BasePortalOutlet.hasAttached, h2, Portal.setAttachedHost]

/-- Witness for C2 at a concrete portal and two concrete outlets. -/
theorem portal_reattach_after_detach_succeeds_witness :
    ∃ p1 w1 d1 p3 w2 d2,
      Portal.attach ⟨PortalVariant.component, none⟩ 0 ⟨none, none, false⟩ =
        Except.ok (p1, w1, d1) ∧
      (p1.detach w1).1.attach 1 ⟨none, none, false⟩ = Except.ok (p3, w2, d2) ∧
      p3.isAttached = true ∧ p3._attachedHost = some 1 :=
  portal_reattach_after_detach_succeeds ⟨PortalVariant.component, none⟩ 0 1
    ⟨none, none, false⟩ ⟨none, none, false⟩ rfl (by decide) rfl rfl

/-- C3: on an outlet with a registered disposal callback, a second `dispose()`
leaves the state produced by the first one unchanged, and across both calls
the disposal callback is invoked exactly once. -/
theorem dispose_twice_idempotent_callback_once
    (o : BasePortalOutlet) (f : Nat) (h : o._disposeFn = some f) :
    (o.dispose.1.dispose).1 = o.dispose.1 ∧
    o.dispose.2 ++ (o.dispose.1.dispose).2 = [f] := by
  obtain ⟨ap, df, d⟩ := o
  cases df with
  | none => exact absurd h (by simp)
  | some g =>
    have hg : g = f := by simpa using h
    subst hg
    cases ap with
    | none => exact ⟨rfl, rfl⟩
    | some p => exact ⟨rfl, rfl⟩

/-- Witness for C3 at a concrete outlet carrying callback 7. -/
theorem dispose_twice_idempotent_callback_once_witness :
    ((BasePortalOutlet.dispose ⟨none, some 7, false⟩).1.dispose).1 =
      (BasePortalOutlet.dispose ⟨none, some 7, false⟩).1 ∧
    (BasePortalOutlet.dispose ⟨none, some 7, false⟩).2 ++
      ((BasePortalOutlet.dispose ⟨none, some 7, false⟩).1.dispose).2 = [7] :=
  dispose_twice_idempotent_callback_once ⟨none, some 7, false⟩ 7 rfl

/-- C4: `isAttached` equals presence of the back-referenced host, for every
portal state, and this equality still holds on the portal produced by
`setAttachedHost`, by `detach`, and by a successful `attach`. -/
theorem isAttached_iff_attachedHost_present
    (p : Portal) (h : Option Nat) (i : Nat) (o : BasePortalOutlet) :
    p.isAttached = p._attachedHost.isSome ∧
    (p.setAttachedHost h).isAttached = (p.setAttachedHost h)._attachedHost.isSome ∧
    (p.detach o).1.isAttached = ((p.detach o).1)._attachedHost.isSome ∧
    (match p.attach i o with
     | Except.ok (p1, _, _) => p1.isAttached = p1._attachedHost.isSome
     | Except.error _ => True) := by
  refine ⟨rfl, rfl, rfl, ?_⟩
  cases hres : p.attach i o with
  | error e => trivial
  | ok t =>
    obtain ⟨p1, w, d⟩ := t
    exact rfl

/-- C5: `detach()` on an outlet in the Empty state returns the outlet
unchanged and invokes no callback (a no-op that does not fail). -/
theorem detach_on_empty_outlet_noop
    (o : BasePortalOutlet) (h : o._attachedPortal = none) :
    o.detach = (o, []) := by
  unfold BasePortalOutlet.detach
  rw [h]

/-- Witness for C5 at a concrete empty outlet. -/
theorem detach_on_empty_outlet_noop_witness :
    BasePortalOutlet.detach ⟨none, none, false⟩ = (⟨none, none, false⟩, []) :=
  detach_on_empty_outlet_noop ⟨none, none, false⟩ rfl

/-- C6: on an outlet that is not already attached, attaching a portal of the
unrecognized (custom) variant fails with `UnknownPortalTypeError`, while a
component portal dispatches to `attachComponentPortal` and a template portal
dispatches to `attachTemplatePortal`, each recording the portal as attached. -/
theorem attach_dispatch_by_variant
    (o : BasePortalOutlet) (p : Portal) (h : o.hasAttached = false) :
    (p.variant = PortalVariant.custom →
      o.attach p = Except.error PortalError.unknownPortalTypeError) ∧
    (p.variant = PortalVariant.component →
      o.attach p =
        Except.ok (AttachDispatch.toComponent, { o with _attachedPortal := some p })) ∧
    (p.variant = PortalVariant.template →
      o.attach p =
        Except.ok (AttachDispatch.toTemplate, { o with _attachedPortal := some p })) := by
  obtain ⟨v, ah⟩ := p
  cases v <;>
    refine ⟨fun hv => ?_, fun hv => ?_, fun hv => ?_⟩ <;>
    simp_all [BasePortalOutlet.attach]

/-- Witness for C6 at a concrete empty outlet and a custom portal. -/
theorem attach_dispatch_by_variant_witness :
    BasePortalOutlet.attach ⟨none, none, false⟩ ⟨PortalVariant.custom, none⟩ =
      Except.error PortalError.unknownPortalTypeError :=
  (attach_dispatch_by_variant ⟨none, none, false⟩ ⟨PortalVariant.custom, none⟩ rfl).1 rfl

/-- C7: registering `f1` and then `f2` as the disposal callback and then
disposing runs exactly `f2`, never `f1` (last registration wins), whatever
state the outlet is in. -/
theorem setDisposeFn_last_registration_wins
    (o : BasePortalOutlet) (f1 f2 : Nat) :
    ((o.setDisposeFn f1).setDisposeFn f2).dispose.2 = [f2] := by
  obtain ⟨ap, df, d⟩ := o
  cases ap <;> rfl

/-- C8: attaching a template portal whose view has k root nodes to a
`DomPortalOutlet` with an initially empty anchor leaves the anchor with
exactly k children, and the subsequent `detach()` removes exactly those k
nodes, leaving the anchor empty with the view handle destroyed. -/
theorem domPortalOutlet_template_attach_detach_roundtrip
    (o : DomPortalOutlet) (p : Portal) (ns : List Nat)
    (h : o.outletChildren = []) :
    (o.attachTemplatePortal p ns).outletChildren.length = ns.length ∧
    ((o.attachTemplatePortal p ns).detach).outletChildren = [] ∧
    ((o.attachTemplatePortal p ns).detach).attachedViewDestroyed = true := by
  refine ⟨?_, ?_, ?_⟩ <;>
    simp [DomPortalOutlet.attachTemplatePortal, DomPortalOutlet.detach, h]

/-- Witness for C8 at a concrete outlet and a three-root-node view. -/
theorem domPortalOutlet_template_attach_detach_roundtrip_witness :
    (DomPortalOutlet.attachTemplatePortal ⟨⟨none, none, false⟩, [], none, false⟩
        ⟨PortalVariant.template, none⟩ [10, 11, 12]).outletChildren.length = 3 ∧
    ((DomPortalOutlet.attachTemplatePortal ⟨⟨none, none, false⟩, [], none, false⟩
        ⟨PortalVariant.template, none⟩ [10, 11, 12]).detach).outletChildren = [] ∧
    ((DomPortalOutlet.attachTemplatePortal ⟨⟨none, none, false⟩, [], none, false⟩
        ⟨PortalVariant.template, none⟩ [10, 11, 12]).detach).attachedViewDestroyed = true :=
  domPortalOutlet_template_attach_detach_roundtrip
    ⟨⟨none, none, false⟩, [], none, false⟩ ⟨PortalVariant.template, none⟩ [10, 11, 12] rfl

/-- C9: `updateActiveLink` changes nothing when `_items` is unset; when
`_items` is set it assigns `selectedIndex` the index of the first item whose
`active` flag is true (leaving the ink bar alone), and when no item is active
it assigns `selectedIndex := -1` and hides the ink bar. -/
theorem updateActiveLink_selects_first_active (s : MatTabNavBase) :
    (s._items = none → s.updateActiveLink = s) ∧
    (∀ items i, s._items = some items → i < items.length →
      (items.getD i ⟨false⟩).active = true →
      (∀ j, j < i → (items.getD j ⟨false⟩).active = false) →
      s.updateActiveLink.selectedIndex = (i : Int) ∧
      s.updateActiveLink.inkBarHidden = s.inkBarHidden) ∧
    (∀ items, s._items = some items → (∀ l ∈ items, l.active = false) →
      s.updateActiveLink.selectedIndex = -1 ∧
      s.updateActiveLink.inkBarHidden = true) := by
  refine ⟨fun h => ?_, fun items i hs hi ha hb => ?_, fun items hs h => ?_⟩
  · simp [MatTabNavBase.updateActiveLink, h]
  · have hf := findActiveIdx_eq_of_first items 0 i hi ha hb
    rw [Nat.zero_add] at hf
    constructor <;> simp [MatTabNavBase.updateActiveLink, hs, hf]
  · have hf := findActiveIdx_none_of_all_inactive items 0 h
    constructor <;> simp [MatTabNavBase.updateActiveLink, hs, hf]

/-- Witness for C9 at a concrete nav bar whose second item is the first
active one. -/
theorem updateActiveLink_selects_first_active_witness :
    (MatTabNavBase.updateActiveLink
        ⟨some [⟨false⟩, ⟨true⟩], 0, false, false⟩).selectedIndex = (1 : Int) ∧
    (MatTabNavBase.updateActiveLink
        ⟨some [⟨false⟩, ⟨true⟩], 0, false, false⟩).inkBarHidden = false :=
  (updateActiveLink_selects_first_active
      ⟨some [⟨false⟩, ⟨true⟩], 0, false, false⟩).2.1
    [⟨false⟩, ⟨true⟩] 1 rfl (by decide) (by decide)
    (fun j hj => by
      have hj0 : j = 0 := Nat.lt_one_iff.mp hj
      subst hj0
      decide)

/-- C10: assigning the `active` input a value equal to the current
`_isActive` leaves the link and the nav bar unchanged and performs zero
`updateActiveLink` invocations; assigning a different value sets `_isActive`
to it and invokes `updateActiveLink` exactly once. -/
theorem setActive_frame_and_update
    (link : TabLink) (nav : MatTabNavBase) (value : Bool) :
    (value = link._isActive → link.setActive nav value = (link, nav, 0)) ∧
    (value ≠ link._isActive →
      link.setActive nav value = (⟨value⟩, nav.updateActiveLink, 1)) := by
  refine ⟨fun h => ?_, fun h => ?_⟩ <;> simp [TabLink.setActive, h]

/-- Witness for C10 at a concrete link and nav bar, covering the
value-differs case. -/
theorem setActive_frame_and_update_witness :
    TabLink.setActive ⟨false⟩ ⟨none, 0, false, false⟩ true =
      (⟨true⟩, MatTabNavBase.updateActiveLink ⟨none, 0, false, false⟩, 1) :=
  (setActive_frame_and_update ⟨false⟩ ⟨none, 0, false, false⟩ true).2 (by decide)
